import Mathlib

/-!
Verification of the browser-side scripts of the Hackathon_2025 fraud-detection
dashboard (src/static/script.js, logs.js, analytics.js, typing-animation.js).

The JavaScript is embedded shallowly: every DOM-writing function is modelled
as a pure Lean function from its inputs (form values, fetch outcomes, JSON
payloads) to a record or inductive value describing exactly what it writes
into the page.  JSON values that may be absent (`undefined`/`null`) are
modelled as `Option`; JS numbers are modelled as `ℚ` (no float rounding is
exercised by any statement below); JS strings as `String`.  Helper functions
reproduce the JS library semantics actually used by the code
(`toLowerCase`, `includes`, `replace`, `parseFloat`, `toFixed`, truthiness
of `x || d`).  HTML template literals are abstracted to the data-dependent
texts they interpolate; literal placeholder texts are kept verbatim.
-/

/-! ## JS-semantics helpers -/

/-- Whitespace as matched by the JS `\s` class (the subset occurring here). -/
def isWsChar (c : Char) : Bool :=
  c = ' ' || c = '\t' || c = '\n' || c = '\r'

/-- JS `String.prototype.toLowerCase` (ASCII range, which is all the code uses). -/
def jsToLowerCase (s : String) : String :=
  String.mk (s.data.map Char.toLower)

/-- JS `s.trim()`. -/
def jsTrim (s : String) : String :=
  String.mk (((s.data.dropWhile isWsChar).reverse.dropWhile isWsChar).reverse)

/-- Does `hay` start with `needle` (on character lists)? -/
def startsWithList : List Char → List Char → Bool
  | [], _ => true
  | _ :: _, [] => false
  | a :: as, b :: bs => a = b && startsWithList as bs

/-- Helper for `jsIncludes`: scan every suffix of the haystack. -/
def jsIncludesAux (needle : List Char) : List Char → Bool
  | [] => needle.isEmpty
  | h :: t => startsWithList needle (h :: t) || jsIncludesAux needle t

/-- JS `hay.includes(needle)` (substring containment). -/
def jsIncludes (hay needle : String) : Bool :=
  jsIncludesAux needle.data hay.data

/-- JS `s.replace(a, b)` with one-character string arguments:
replaces only the first occurrence. -/
def replaceFirstAux (a b : Char) : List Char → List Char
  | [] => []
  | c :: t => if c = a then b :: t else c :: replaceFirstAux a b t

/-- JS `s.replace(a, b)` (first occurrence only, single characters). -/
def jsReplaceFirstChar (s : String) (a b : Char) : String :=
  String.mk (replaceFirstAux a b s.data)

/-- JS `s.replace(/a/g, b)` (every occurrence, single characters). -/
def jsReplaceAllChar (s : String) (a b : Char) : String :=
  String.mk (s.data.map (fun c => if c = a then b else c))

/-- Numeric value of a list of decimal digit characters. -/
def digitsToNat (l : List Char) : Nat :=
  l.foldl (fun n c => n * 10 + (c.toNat - '0'.toNat)) 0

/-- JS `parseFloat` restricted to the plain-decimal grammar
(optional whitespace, optional sign, digits with an optional fraction part);
`none` models the `NaN` result.  Exponents never occur in this code's inputs. -/
def parseFloat (s : String) : Option ℚ :=
  let l := s.data.dropWhile isWsChar
  let sign : Int := match l with
    | '-' :: _ => -1
    | _ => 1
  let l1 := match l with
    | '-' :: r => r
    | '+' :: r => r
    | r => r
  let intDigits := l1.takeWhile Char.isDigit
  let rest := l1.dropWhile Char.isDigit
  let fracDigits := match rest with
    | '.' :: r => r.takeWhile Char.isDigit
    | _ => []
  if intDigits.isEmpty && fracDigits.isEmpty then none
  else some (mkRat (sign * digitsToNat (intDigits ++ fracDigits)) (10 ^ fracDigits.length))

/-- Left-pad a digit string with zeros to width `w`. -/
def padZeros (w : Nat) (s : String) : String :=
  String.mk (List.replicate (w - s.data.length) '0') ++ s

/-- JS `q.toFixed(digits)`: decimal rendering with `digits` fraction digits,
rounding to the nearest (ties away from zero; every value this code formats
is nonnegative, where JS agrees).  Implemented on `num`/`den` so that it
evaluates inside the kernel. -/
def qToFixed (digits : Nat) (q : ℚ) : String :=
  let p : Nat := 10 ^ digits
  let m : Nat := (q.num * (p : Int)).natAbs
  let r : Nat := (2 * m + q.den) / (2 * q.den)
  (if q.num < 0 then "-" else "")
    ++ toString (r / p)
    ++ (if digits = 0 then "" else "." ++ padZeros digits (toString (r % p)))

/-- The JS product `q * 100` (kernel-evaluable form). -/
def qScale100 (q : ℚ) : ℚ := mkRat (q.num * 100) q.den

/-- The JS quotient `q / n` for a positive integer `n` (kernel-evaluable form). -/
def qDivNat (q : ℚ) (n : Nat) : ℚ := mkRat q.num (q.den * n)

/-- JS `x || d` for a possibly-absent string: `undefined`, `null` and the
empty string are falsy and yield the default. -/
def jsOrStr (v : Option String) (dflt : String) : String :=
  match v with
  | some s => if s = "" then dflt else s
  | none => dflt

/-- JS `x || "N/A"` for a possibly-absent number rendered into text:
`undefined` and `0` are falsy. -/
def natOrNA (v : Option Nat) : String :=
  match v with
  | some n => if n = 0 then "N/A" else toString n
  | none => "N/A"

/-- JS truthiness of a possibly-absent boolean field. -/
def truthy (b : Option Bool) : Bool := b = some true

/-! ## script.js — prediction-form submit handler (lines 14–41)

The `submit` listener validates the phone number against
`/^\+?[1-9]\d{1,14}$/` (after stripping `[\s-]`), validates the amount via
`parseFloat` (`isNaN(amount) || amount <= 0` rejects), asks `window.confirm`
for amounts above 1 000 000, and otherwise lets the submission proceed and
shows the loading overlay. -/

/-- Core of the regex after the optional `+`: `[1-9]\d{1,14}`. -/
def phoneRegexCore : List Char → Bool
  | [] => false
  | h :: t =>
    ('1' ≤ h && h ≤ '9') && t.all Char.isDigit && (1 ≤ t.length && t.length ≤ 14)

/-- The test `/^\+?[1-9]\d{1,14}$/.test(s)`. -/
def phoneRegexTest (s : String) : Bool :=
  match s.data with
  | '+' :: rest => phoneRegexCore rest
  | l => phoneRegexCore l

/-- JS `value.replace(/[\s-]/g, '')`. -/
def stripSpacesAndHyphens (s : String) : String :=
  String.mk (s.data.filter (fun c => !(isWsChar c || c = '-')))

/-- The handler's phone check on the raw input value. -/
def validatePhone (value : String) : Bool :=
  phoneRegexTest (stripSpacesAndHyphens value)

/-- The handler's amount check on the raw input value
(`!(isNaN(amount) || amount <= 0)`). -/
def amountValid (value : String) : Bool :=
  match parseFloat value with
  | none => false
  | some amount => decide (0 < amount)

/-- What one run of the submit handler does to the page. -/
structure FormSubmitOutcome where
  defaultPrevented : Bool
  /-- `showValidationError` target input id and message, when validation fails. -/
  validationError : Option (String × String)
  /-- Whether the large-amount `window.confirm` dialog was shown. -/
  confirmShown : Bool
  /-- Whether the loading overlay was activated (submission proceeds). -/
  loadingShown : Bool
  deriving DecidableEq

/-- The `submit` listener of `#predictionForm` (script.js lines 14–41);
`userConfirms` is the user's answer to the `window.confirm` dialog. -/
def predictionFormSubmit (phoneValue amountValue : String) (userConfirms : Bool) :
    FormSubmitOutcome :=
  if !phoneRegexTest (stripSpacesAndHyphens phoneValue) then
    ⟨true, some ("phone_number", "Please enter a valid phone number (e.g., +1234567890)"),
      false, false⟩
  else
    match parseFloat amountValue with
    | none =>
      ⟨true, some ("transaction_amount", "Please enter a valid amount greater than 0"),
        false, false⟩
    | some amount =>
      if amount ≤ 0 then
        ⟨true, some ("transaction_amount", "Please enter a valid amount greater than 0"),
          false, false⟩
      else if 1000000 < amount then
        if userConfirms then ⟨false, none, true, true⟩
        else ⟨true, none, true, false⟩
      else ⟨false, none, false, true⟩

/-! ## script.js — the two `submitFeedback` declarations

The file declares `function submitFeedback` twice (lines 96–169 and
446–480).  Both are top-level function declarations in the same script, so
the later one shadows the earlier one, and `window.submitFeedback =
submitFeedback` (line 499) exports the later one.  `submitFeedbackFirstDef`
embeds the first declaration; `submitFeedback` keeps the source name for the
effective (second) declaration. -/

/-- The HTTP request a feedback submission emits. -/
structure FeedbackRequest where
  url : String
  /-- JSON body as ordered key/value pairs. -/
  body : List (String × String)
  deriving DecidableEq

/-- Server response body for the feedback POST. -/
structure FeedbackResponse where
  message : String
  status : String
  deriving DecidableEq

/-- Outcome of the `fetch`: a parsed JSON response, or a rejection. -/
inductive FetchOutcome where
  | success (resp : FeedbackResponse)
  | failure (err : String)
  deriving DecidableEq

/-- Observable effects of one `submitFeedback` call. -/
structure FeedbackEffects where
  request : FeedbackRequest
  /-- Were the feedback buttons disabled before/while the request was in flight? -/
  buttonsDisabledDuringFlight : Bool
  /-- Text written into `#feedbackMessage` after the response (markup abstracted). -/
  messageShown : String
  /-- Are the feedback buttons disabled once the response was handled? -/
  buttonsDisabledAfterResponse : Bool
  /-- Delay after which a timer re-enables the buttons, if any. -/
  reenableDelayMs : Option Nat
  /-- Delay after which a timer clears the message, if any. -/
  messageAutoHideMs : Option Nat
  deriving DecidableEq

/-- The success message chosen by the `switch (feedbackType)` of the first
declaration (script.js lines 116–136). -/
def categoryMessage (feedbackType : String) : String :=
  if feedbackType = "correct" then
    "Thank you! Your feedback helps improve our AI model."
  else if feedbackType = "false_positive" then
    "Noted. We\x27ll review this case to improve accuracy."
  else if feedbackType = "under_review" then
    "Marked for review. Our team will investigate."
  else "Feedback received!"

/-- First declaration of `submitFeedback` (script.js lines 96–169): posts to
`/feedback` with keys `phone_number`/`feedback`, disables
`.feedback-btn-compact` buttons up front, shows a category-specific success
message (auto-hidden after 5 s) or a static failure message, and re-enables
the buttons 2 s after either outcome (`finally`). -/
def submitFeedbackFirstDef (phone feedbackType : String) (outcome : FetchOutcome) :
    FeedbackEffects where
  request := ⟨"/feedback", [("phone_number", phone), ("feedback", feedbackType)]⟩
  buttonsDisabledDuringFlight := true
  messageShown :=
    match outcome with
    | .success _ => categoryMessage feedbackType
    | .failure _ => "Failed to submit feedback. Please try again."
  buttonsDisabledAfterResponse := true
  reenableDelayMs := some 2000
  messageAutoHideMs :=
    match outcome with
    | .success _ => some 5000
    | .failure _ => none

/-- Second (effective, exported) declaration of `submitFeedback`
(script.js lines 446–480): posts to `/api/feedback` with keys
`phone_number`/`feedback_type`, never touches the buttons before the
response, on success shows the server-provided `data.message` and disables
the `.btn-feedback` buttons, on failure shows the static text
"Error submitting feedback"; no timer ever re-enables anything. -/
def submitFeedback (phoneNumber feedbackType : String) (outcome : FetchOutcome) :
    FeedbackEffects where
  request := ⟨"/api/feedback", [("phone_number", phoneNumber), ("feedback_type", feedbackType)]⟩
  buttonsDisabledDuringFlight := false
  messageShown :=
    match outcome with
    | .success resp => resp.message
    | .failure _ => "Error submitting feedback"
  buttonsDisabledAfterResponse :=
    match outcome with
    | .success _ => true
    | .failure _ => false
  reenableDelayMs := none
  messageAutoHideMs := none

/-- `window.submitFeedback = submitFeedback` (script.js line 499) exports the
last declaration. -/
def windowSubmitFeedback := submitFeedback

/-! ## script.js — `loadRecentTransactions` (lines 318–354)

Fetches `/api/logs`; an empty array renders the placeholder
"No transactions yet", otherwise `logs.slice(0, 5)` is rendered in order;
a fetch failure renders "Error loading transactions". -/

/-- One entry of the `/api/logs` response, as this renderer reads it.
`parseFloat(log.transaction_amount)` coerces the JSON number, so the amount
is modelled directly as `ℚ`. -/
structure RecentLogEntry where
  phone_number : String
  timestamp : String
  transaction_amount : ℚ
  risk_level : String
  deriving DecidableEq

/-- The data-dependent parts of one rendered `.log-item`. -/
structure RenderedLogItem where
  phoneText : String
  timeText : String
  amountText : String
  badgeClass : String
  riskText : String
  deriving DecidableEq

/-- The body of the `logs.map(log => ...)` template (lines 334–345). -/
def renderLogItem (log : RecentLogEntry) : RenderedLogItem where
  phoneText := log.phone_number
  timeText := log.timestamp
  amountText := qToFixed 2 log.transaction_amount
  badgeClass := "risk-badge " ++ jsReplaceFirstChar (jsToLowerCase log.risk_level) ' ' '-'
  riskText := log.risk_level

/-- What `#recentLogs` ends up containing. -/
inductive RecentLogsView where
  | placeholderText (s : String)
  | items (l : List RenderedLogItem)
  deriving DecidableEq

/-- `loadRecentTransactions` (script.js lines 318–354) as a function of the
fetch outcome. -/
def loadRecentTransactions (fetchResult : Except String (List RecentLogEntry)) :
    RecentLogsView :=
  match fetchResult with
  | .error _ => .placeholderText "Error loading transactions"
  | .ok logs =>
    if logs.length = 0 then .placeholderText "No transactions yet"
    else .items ((logs.take 5).map renderLogItem)

/-! ## logs.js — `filterTable` (lines 19–37)

Lower-cases the search input, reads the risk filter, and toggles each row's
`display` between `''` (with a fade-in animation) and `'none'`. -/

/-- One `<tr>` of `#logsTableBody` as `filterTable` reads and writes it:
`cells[1].textContent` (the phone-number column), the `data-risk`
attribute, and the two style properties it assigns. -/
structure LogTableRow where
  phoneCellText : String
  dataRisk : String
  display : String
  animation : String
  deriving DecidableEq

/-- The body of the `allRows.forEach(row => ...)` callback, given the
already-lower-cased search term and the selected risk value. -/
def filterRowUpdate (searchTerm selectedRisk : String) (row : LogTableRow) :
    LogTableRow :=
  let phoneNumber := jsToLowerCase row.phoneCellText
  let matchesSearch := jsIncludes phoneNumber searchTerm
  let matchesRisk := selectedRisk = "all" || row.dataRisk = selectedRisk
  if matchesSearch && matchesRisk then
    { row with display := "", animation := "fadeIn 0.3s ease-out" }
  else
    { row with display := "none" }

/-- `filterTable` (logs.js lines 19–37) over the captured row list, given the
raw values of `#searchInput` and `#riskFilter`. -/
def filterTable (searchValue riskValue : String) (rows : List LogTableRow) :
    List LogTableRow :=
  let searchTerm := jsToLowerCase searchValue
  let selectedRisk := riskValue
  rows.map (filterRowUpdate searchTerm selectedRisk)

/-! ## logs.js — `showDetails` (lines 163–322)

Populates the details modal field by field from the row's log object.
`innerHTML` writes of styled `<span>`s are abstracted to their text. -/

/-- `camara_data.sim_swap`. -/
structure SimSwapData where
  swapped : Option Bool
  last_swap_date : Option String
  deriving DecidableEq

/-- `camara_data.location`. -/
structure LocationCheckData where
  verified : Option Bool
  distance_meters : Option ℚ
  deriving DecidableEq

/-- `camara_data.roaming`. -/
structure RoamingData where
  roaming : Option Bool
  current_network : Option String
  home_network : Option String
  roaming_country : Option String
  deriving DecidableEq

/-- `camara_data.device_status`. -/
structure DeviceStatusData where
  connection_status : Option String
  signal_strength : Option String
  network_type : Option String
  last_seen : Option String
  deriving DecidableEq

/-- The nested network-intelligence blob of a log entry. -/
structure CamaraData where
  sim_swap : Option SimSwapData
  location : Option LocationCheckData
  roaming : Option RoamingData
  device_status : Option DeviceStatusData
  deriving DecidableEq

/-- One triggered rule of `log.explanation.triggered_rules`. -/
structure TriggeredRule where
  rule : String
  severity : String
  impact : String
  description : String
  deriving DecidableEq

/-- `log.explanation`. -/
structure RuleExplanation where
  triggered_rules : Option (List TriggeredRule)
  summary : Option String
  factors : Option (List String)
  deriving DecidableEq

/-- The transaction-log JSON blob handed to `showDetails`; every field the
function reads, each possibly absent. -/
structure TransactionLog where
  phone_number : Option String
  transaction_amount : Option ℚ
  timestamp : Option String
  fraud_probability : Option ℚ
  risk_level : Option String
  camara_data : Option CamaraData
  customer_vintage : Option String
  risk_rating : Option String
  segment : Option String
  occupation : Option String
  country : Option String
  city : Option String
  geo_restriction : Option String
  pep_flag : Option String
  txn_count_1h : Option Nat
  credit_reversals_7d : Option Nat
  explanation : Option RuleExplanation
  deriving DecidableEq

/-- The eight CAMARA-section fields of the modal. -/
structure CamaraModalFields where
  modalSimSwap : String
  modalSimSwapDate : String
  modalLocationVerified : String
  modalLocationDistance : String
  modalRoamingStatus : String
  modalCurrentNetwork : String
  modalDeviceStatus : String
  modalSignalStrength : String
  deriving DecidableEq

/-- The `if (log.camara_data) { ... } else { ... }` block
(logs.js lines 180–255); status spans abstracted to their status words. -/
def camaraModalFields (c : Option CamaraData) : CamaraModalFields :=
  match c with
  | none =>
    ⟨"N/A", "N/A", "N/A", "N/A", "N/A", "N/A", "N/A", "N/A"⟩
  | some camara =>
    let simSwap := camara.sim_swap.getD ⟨none, none⟩
    let location := camara.location.getD ⟨none, none⟩
    let roaming := camara.roaming.getD ⟨none, none, none, none⟩
    let deviceStatus := camara.device_status.getD ⟨none, none, none, none⟩
    let currentNetwork := jsOrStr roaming.current_network "Unknown"
    let homeNetwork := jsOrStr roaming.home_network "Unknown"
    let roamingCountry := jsOrStr roaming.roaming_country "Unknown"
    let connectionStatus := jsOrStr deviceStatus.connection_status "UNKNOWN"
    let signalStrength := jsOrStr deviceStatus.signal_strength "Unknown"
    let networkType := jsOrStr deviceStatus.network_type "Unknown"
    let lastSeen := jsOrStr deviceStatus.last_seen "Unknown"
    let distance := location.distance_meters.getD 0
    { modalSimSwap := if truthy simSwap.swapped then "DETECTED" else "CLEAR"
      modalSimSwapDate := jsOrStr simSwap.last_swap_date "N/A"
      modalLocationVerified := if truthy location.verified then "VERIFIED" else "MISMATCH"
      modalLocationDistance :=
        if distance = 0 then "N/A" else qToFixed 1 (qDivNat distance 1000) ++ " km"
      modalRoamingStatus := if truthy roaming.roaming then "ROAMING" else "HOME NETWORK"
      modalCurrentNetwork :=
        if truthy roaming.roaming then currentNetwork ++ " (" ++ roamingCountry ++ ")"
        else homeNetwork
      modalDeviceStatus :=
        if connectionStatus = "DATA" then "DATA CONNECTED"
        else if connectionStatus = "SMS" then "SMS ONLY"
        else if connectionStatus = "NOT_CONNECTED" then "OFFLINE"
        else "UNKNOWN"
      modalSignalStrength :=
        if connectionStatus ≠ "NOT_CONNECTED" then
          signalStrength ++ " (" ++ networkType ++ ")"
        else "No Signal - Last seen: " ++ lastSeen }

/-- The rendered key-detection-factors block (`<em>No factors available</em>`
vs the `<ul>` of factors, abstracted to the list). -/
inductive FactorsView where
  | noFactors
  | factorList (l : List String)
  deriving DecidableEq

/-- Everything `showDetails` writes into the details modal. -/
structure DetailsModalView where
  modalPhone : String
  modalAmount : String
  modalTimestamp : String
  modalProbability : String
  modalRiskLevelText : String
  modalRiskLevelClass : String
  camara : CamaraModalFields
  modalVintage : String
  modalRiskRating : String
  modalSegment : String
  modalOccupation : String
  modalCountry : String
  modalCity : String
  modalGeoRestriction : String
  modalPepFlag : String
  modalTxnCount : String
  modalReversals : String
  triggeredRulesVisible : Bool
  modalTriggeredRules : List TriggeredRule
  modalExplanationSummary : String
  modalExplanationFactors : FactorsView
  deriving DecidableEq

/-- `showDetails` (logs.js lines 163–322).  The absent `fraud_probability`
branch reflects JS arithmetic: `undefined * 100` is `NaN` and
`NaN.toFixed(1)` is `"NaN"`. -/
def showDetails (log : TransactionLog) : DetailsModalView where
  modalPhone := jsOrStr log.phone_number "N/A"
  modalAmount := "$" ++ qToFixed 2 (log.transaction_amount.getD 0)
  modalTimestamp := jsOrStr log.timestamp "N/A"
  modalProbability :=
    match log.fraud_probability with
    | some p => qToFixed 1 (qScale100 p) ++ "%"
    | none => "NaN%"
  modalRiskLevelText := jsOrStr log.risk_level "N/A"
  modalRiskLevelClass :=
    "risk-badge " ++ jsReplaceFirstChar (jsToLowerCase (log.risk_level.getD "")) ' ' '-'
  camara := camaraModalFields log.camara_data
  modalVintage := jsOrStr log.customer_vintage "N/A"
  modalRiskRating := jsOrStr log.risk_rating "N/A"
  modalSegment := jsOrStr log.segment "N/A"
  modalOccupation := jsOrStr log.occupation "N/A"
  modalCountry := jsOrStr log.country "N/A"
  modalCity := jsOrStr log.city "N/A"
  modalGeoRestriction := jsOrStr log.geo_restriction "N/A"
  modalPepFlag := jsOrStr log.pep_flag "N/A"
  modalTxnCount := natOrNA log.txn_count_1h
  modalReversals := natOrNA log.credit_reversals_7d
  triggeredRulesVisible :=
    match log.explanation with
    | some ex =>
      match ex.triggered_rules with
      | some rules => decide (0 < rules.length)
      | none => false
    | none => false
  modalTriggeredRules :=
    match log.explanation with
    | some ex =>
      match ex.triggered_rules with
      | some rules => if 0 < rules.length then rules else []
      | none => []
    | none => []
  modalExplanationSummary :=
    match log.explanation with
    | some ex => jsOrStr ex.summary "No explanation provided."
    | none => "No explanation provided."
  modalExplanationFactors :=
    match log.explanation with
    | some ex =>
      match ex.factors with
      | some fs => if 0 < fs.length then .factorList fs else .noFactors
      | none => .noFactors
    | none => .noFactors

/-- A log object with every optional field absent. -/
def emptyLog : TransactionLog :=
  ⟨none, none, none, none, none, none, none, none, none, none, none, none,
   none, none, none, none, none⟩

/-! ## analytics.js — heatmap, map, velocity, behavior widgets

Each `loadX` function fetches its endpoint, replaces its container's markup
on success, and on any failure replaces the container with a static error
paragraph (the `.catch` handlers at lines 42–46, 130–134, 194–198, 259–263).
Each view type has one constructor per DOM outcome. -/

/-- One bucket of `/api/fraud-heatmap`'s `hourly_fraud`. -/
structure HourlyFraudData where
  total : Nat
  high_risk : Nat
  fraud_rate : ℚ
  deriving DecidableEq

/-- `/api/fraud-heatmap` response body. -/
structure HeatmapData where
  hourly_fraud : List HourlyFraudData
  deriving DecidableEq

/-- The data-dependent parts of one rendered heatmap cell. -/
structure HeatmapCell where
  hour : Nat
  color : String
  textColor : String
  rateText : String
  deriving DecidableEq

/-- `getHeatColor` (analytics.js lines 49–55). -/
def getHeatColor (fraudRate : ℚ) : String :=
  if fraudRate = 0 then "#1a1f29"
  else if fraudRate ≤ 20 then "#10b981"
  else if fraudRate ≤ 50 then "#f59e0b"
  else "#ef4444"

/-- Contents of `#heatmapContainer`. -/
inductive HeatmapView where
  | errorText (s : String)
  | cells (l : List HeatmapCell)
  deriving DecidableEq

/-- `loadHeatmap` (analytics.js lines 12–47).  `data.hourly_fraud[hour] ||
{total: 0, high_risk: 0, fraud_rate: 0}` is the `getD` default; `fraudRate =
hourData.fraud_rate || 0` is the identity on a present numeric field. -/
def loadHeatmap (fetchResult : Except String HeatmapData) : HeatmapView :=
  match fetchResult with
  | .error _ => .errorText "Error loading heatmap data"
  | .ok data =>
    .cells ((List.range 24).map (fun hour =>
      let hourData := (data.hourly_fraud.get? hour).getD ⟨0, 0, 0⟩
      let fraudRate := hourData.fraud_rate
      { hour := hour
        color := getHeatColor fraudRate
        textColor := if 50 < fraudRate then "#ffffff" else "#1a1f29"
        rateText := qToFixed 0 fraudRate ++ "%" }))

/-- One cluster of `/api/fraud-geographic`. -/
structure GeoCluster where
  location : String
  lat : ℚ
  lon : ℚ
  count : Nat
  risk_level : String
  risk_rate : ℚ
  total_amount : ℚ
  deriving DecidableEq

/-- `/api/fraud-geographic` response body. -/
structure GeoData where
  clusters : List GeoCluster
  deriving DecidableEq

/-- One Leaflet circle marker with its popup data. -/
structure MapMarkerView where
  lat : ℚ
  lon : ℚ
  color : String
  radius : Nat
  popupLocation : String
  popupCount : Nat
  popupRiskLevel : String
  popupRiskRate : ℚ
  popupTotalAmountText : String
  deriving DecidableEq

/-- Contents of `#fraudMap`. -/
inductive FraudMapView where
  | errorText (s : String)
  | markers (l : List MapMarkerView)
  deriving DecidableEq

/-- `loadFraudMap` (analytics.js lines 86–135); tile layer and `fitBounds`
are presentation-only and not modelled. -/
def loadFraudMap (fetchResult : Except String GeoData) : FraudMapView :=
  match fetchResult with
  | .error _ => .errorText "Error loading map"
  | .ok data =>
    .markers (data.clusters.map (fun cluster =>
      let color :=
        if cluster.risk_level = "High" then "#ef4444"
        else if cluster.risk_level = "Medium" then "#f59e0b"
        else "#10b981"
      { lat := cluster.lat
        lon := cluster.lon
        color := color
        radius := min (max (cluster.count * 3) 8) 40
        popupLocation := cluster.location
        popupCount := cluster.count
        popupRiskLevel := cluster.risk_level
        popupRiskRate := cluster.risk_rate
        popupTotalAmountText := "$" ++ qToFixed 2 cluster.total_amount }))

/-- One anomaly of `/api/velocity-checks`. -/
structure VelocityAnomaly where
  phone : String
  severity : String
  transaction_count : Nat
  time_window : String
  location_count : Nat
  total_amount : ℚ
  high_risk_count : Nat
  deriving DecidableEq

/-- `/api/velocity-checks` response body. -/
structure VelocityData where
  anomalies : List VelocityAnomaly
  deriving DecidableEq

/-- The data-dependent parts of one rendered `.velocity-alert`. -/
structure VelocityAlertView where
  severity : String
  borderColor : String
  phone : String
  rapidText : String
  locationCount : Nat
  totalAmountText : String
  highRiskCount : Nat
  deriving DecidableEq

/-- Contents of `#velocityChecks`. -/
inductive VelocityView where
  | errorText (s : String)
  | noAnomalies (msg : String)
  | alerts (l : List VelocityAlertView)
  deriving DecidableEq

/-- `loadVelocityChecks` (analytics.js lines 140–199). -/
def loadVelocityChecks (fetchResult : Except String VelocityData) : VelocityView :=
  match fetchResult with
  | .error _ => .errorText "Error loading velocity data"
  | .ok data =>
    if data.anomalies.length = 0 then
      .noAnomalies "No velocity anomalies detected"
    else
      .alerts (data.anomalies.map (fun anomaly =>
        { severity := anomaly.severity
          borderColor :=
            if anomaly.severity = "HIGH" then "var(--danger-color)"
            else "var(--warning-color)"
          phone := anomaly.phone
          rapidText := toString anomaly.transaction_count ++ " in " ++ anomaly.time_window
          locationCount := anomaly.location_count
          totalAmountText := "$" ++ qToFixed 2 anomaly.total_amount
          highRiskCount := anomaly.high_risk_count }))

/-- One event of `/api/network-behavior`. -/
structure NetworkBehaviorEvent where
  type : String
  severity : String
  timestamp : String
  phone : String
  details : String
  risk_level : String
  deriving DecidableEq

/-- `/api/network-behavior` response body. -/
structure BehaviorData where
  events : List NetworkBehaviorEvent
  deriving DecidableEq

/-- The data-dependent parts of one rendered `.timeline-event`. -/
structure BehaviorEventView where
  markerClass : String
  icon : String
  eventType : String
  severity : String
  severityColor : String
  timestamp : String
  phone : String
  details : String
  riskBadgeClass : String
  riskLevel : String
  deriving DecidableEq

/-- Contents of `#behaviorTimeline`. -/
inductive BehaviorView where
  | errorText (s : String)
  | noEvents (msg : String)
  | events (l : List BehaviorEventView)
  deriving DecidableEq

/-- `loadBehaviorTimeline` (analytics.js lines 204–264). -/
def loadBehaviorTimeline (fetchResult : Except String BehaviorData) : BehaviorView :=
  match fetchResult with
  | .error _ => .errorText "Error loading timeline"
  | .ok data =>
    if data.events.length = 0 then
      .noEvents "No network behavior events detected"
    else
      .events (data.events.map (fun event =>
        { markerClass := "marker-" ++ jsReplaceAllChar (jsToLowerCase event.type) ' ' '-'
          icon :=
            if event.type = "SIM Swap" then "bi-sim"
            else if event.type = "Location Change" then "bi-geo-alt"
            else if event.type = "Roaming" then "bi-globe"
            else if event.type = "Device Offline" then "bi-phone-x"
            else "bi-activity"
          eventType := event.type
          severity := event.severity
          severityColor :=
            if event.severity = "CRITICAL" then "#991b1b"
            else if event.severity = "HIGH" then "var(--danger-color)"
            else "var(--warning-color)"
          timestamp := event.timestamp
          phone := event.phone
          details := event.details
          riskBadgeClass := jsReplaceFirstChar (jsToLowerCase event.risk_level) ' ' '-'
          riskLevel := event.risk_level }))

/-! ## script.js (llm_explanation part) — `displayLLMExplanation` and its
sub-section renderers (lines 508–877)

The explanation payload may be partial, so every field is `Option`.  The
renderers are embedded in an error-aware semantics: member access on an
`undefined` value (`Except.error`, a JS `TypeError`) is the only way a
renderer can fail; interpolating `undefined` into a template literal renders
the text `"undefined"` and does not fail. -/

/-- Rendering JS `template ${x}` of a possibly-undefined string. -/
def jsStrOpt (v : Option String) : String := v.getD "undefined"

/-- One entry of `customer_profile.recent_transactions` /
`historical_context.recent_transactions`. -/
structure TimelineTxn where
  amount : Option ℚ
  time : Option String
  risk : Option String
  deriving DecidableEq

/-- `llmData.customer_profile`. -/
structure CustomerProfile where
  total_transactions : Option Nat
  average_amount : Option ℚ
  velocity_pattern : Option String
  days_as_customer : Option Nat
  recent_transactions : Option (List TimelineTxn)
  deriving DecidableEq

/-- `llmData.historical_context`. -/
structure HistoricalContext where
  recent_transactions : Option (List TimelineTxn)
  deriving DecidableEq

/-- One entry of `llmData.risk_factors`. -/
structure LLMRiskFactor where
  factor : Option String
  severity : Option String
  explanation : Option String
  deriving DecidableEq

/-- `llmData.recommendation`. -/
structure LLMRecommendation where
  action : Option String
  urgency : Option String
  next_steps : Option (List String)
  additional_info_needed : Option (List String)
  deriving DecidableEq

/-- The LLM explanation payload. -/
structure LLMData where
  executive_summary : Option String
  detailed_analysis : Option String
  behavioral_insights : Option String
  customer_profile : Option CustomerProfile
  risk_factors : Option (List LLMRiskFactor)
  recommendation : Option LLMRecommendation
  historical_context : Option HistoricalContext
  deriving DecidableEq

/-- The second argument of `displayLLMExplanation`. -/
structure PredictionTransactionData where
  camara_data : Option CamaraData
  deriving DecidableEq

/-- `populateExecutiveSummary` (lines 533–538): writes the summary text only
when `llmData.executive_summary` is truthy; otherwise leaves the element
untouched (`none`). -/
def populateExecutiveSummary (llmData : LLMData) : Option String :=
  match llmData.executive_summary with
  | some s => if s = "" then none else some s
  | none => none

/-- Splitter for `analysis.split(/\*\*|\n\n/)`: cut at every `**` or blank
line, scanning left to right. -/
def splitSectionsAux : List Char → List Char → List (List Char)
  | '*' :: '*' :: rest, acc => acc.reverse :: splitSectionsAux rest []
  | '\n' :: '\n' :: rest, acc => acc.reverse :: splitSectionsAux rest []
  | c :: rest, acc => splitSectionsAux rest (c :: acc)
  | [], acc => [acc.reverse]

/-- JS `s.split(/\*\*|\n\n/)`. -/
def splitSections (s : String) : List String :=
  (splitSectionsAux s.data []).map String.mk

/-- A rendered piece of a detailed-analysis/behavioral-insights text:
short colon-bearing sections become `<h5>` headers, the rest paragraphs. -/
inductive AnalysisPiece where
  | header (s : String)
  | paragraph (s : String)
  deriving DecidableEq

/-- The shared `sections.filter(...).forEach(...)` rendering of lines
551–565 and 582–593. -/
def renderAnalysisPieces (analysis : String) : List AnalysisPiece :=
  ((splitSections analysis).filter (fun s => jsTrim s ≠ "")).map (fun s =>
    let trimmed := jsTrim s
    if jsIncludes trimmed ":" && trimmed.data.length < 100 then .header trimmed
    else .paragraph trimmed)

/-- Contents of `#detailedAnalysisContent`. -/
inductive DetailedAnalysisView where
  | skipped
  | generatedPlaceholder
  | content (pieces : List AnalysisPiece)
  deriving DecidableEq

/-- `populateDetailedAnalysis` (lines 543–568): skips when
`llmData.detailed_analysis` is falsy; an all-whitespace text falls back to
the "Detailed analysis is being generated..." placeholder. -/
def populateDetailedAnalysis (llmData : LLMData) : DetailedAnalysisView :=
  match llmData.detailed_analysis with
  | none => .skipped
  | some analysis =>
    if analysis = "" then .skipped
    else
      let pieces := renderAnalysisPieces analysis
      if pieces.isEmpty then .generatedPlaceholder else .content pieces

/-- The customer-profile summary card of the behavioral-insights section. -/
structure ProfileSummaryView where
  totalTransactions : Nat
  averageAmountText : String
  activityLevel : String
  daysAsCustomer : Nat
  deriving DecidableEq

/-- Contents of `#behavioralInsightsContent`. -/
inductive BehavioralView where
  | placeholderNoInsights
  | content (pieces : List AnalysisPiece) (profile : Option ProfileSummaryView)
  deriving DecidableEq

/-- `populateBehavioralInsights` (lines 573–628): LLM text pieces plus an
optional profile card; an overall empty `html` falls back to the
"No behavioral insights available" placeholder. -/
def populateBehavioralInsights (llmData : LLMData) : BehavioralView :=
  let pieces :=
    match llmData.behavioral_insights with
    | some insights => if insights = "" then [] else renderAnalysisPieces insights
    | none => []
  let profileView :=
    match llmData.customer_profile with
    | some profile =>
      some { totalTransactions := profile.total_transactions.getD 0
             averageAmountText := "$" ++ qToFixed 2 (profile.average_amount.getD 0)
             activityLevel := jsOrStr profile.velocity_pattern "Unknown"
             daysAsCustomer := profile.days_as_customer.getD 0 }
    | none => none
  if pieces.isEmpty && profileView.isNone then .placeholderNoInsights
  else .content pieces profileView

/-- One rendered `.risk-factor-item`. -/
structure RiskFactorView where
  title : String
  severity : String
  description : String
  deriving DecidableEq

/-- Contents of `#riskFactorsContent`. -/
inductive RiskFactorsView where
  | noneDetected
  | factorItems (l : List RiskFactorView)
  deriving DecidableEq

/-- `populateRiskFactors` (lines 633–665): `llmData.risk_factors || []`;
an empty list renders the "No significant risk factors detected" card. -/
def populateRiskFactors (llmData : LLMData) : RiskFactorsView :=
  let riskFactors := llmData.risk_factors.getD []
  if riskFactors.length = 0 then .noneDetected
  else
    .factorItems (riskFactors.map (fun factor =>
      { title := jsStrOpt factor.factor
        severity := jsStrOpt factor.severity
        description := jsStrOpt factor.explanation }))

/-- The four network-intelligence cards (statuses abstracted to their
header words). -/
structure NetworkIntelView where
  simSwapStatus : String
  locationStatus : String
  roamingStatus : String
  deviceStatus : String
  deriving DecidableEq

/-- `populateNetworkIntelligence` (lines 670–780): skips (`none`) when
`transactionData.camara_data` is falsy; each card defaults its sub-object
to `{}` and renders from truthiness checks, which cannot fail.  The first
parameter is accepted but unused, exactly as in the source. -/
def populateNetworkIntelligence (_llmData : LLMData)
    (transactionData : PredictionTransactionData) : Option NetworkIntelView :=
  match transactionData.camara_data with
  | none => none
  | some camara =>
    let simSwap := camara.sim_swap.getD ⟨none, none⟩
    let location := camara.location.getD ⟨none, none⟩
    let roaming := camara.roaming.getD ⟨none, none, none, none⟩
    let deviceStatus := camara.device_status.getD ⟨none, none, none, none⟩
    some { simSwapStatus := if truthy simSwap.swapped then "DETECTED" else "Clear"
           locationStatus := if truthy location.verified then "Verified" else "Mismatch"
           roamingStatus := if truthy roaming.roaming then "Roaming" else "Home Network"
           deviceStatus := jsOrStr deviceStatus.connection_status "Unknown" }

/-- The rendered recommendations section. -/
structure RecommendationView where
  actionText : String
  actionClass : String
  urgency : Option String
  nextSteps : List String
  additionalInfo : List String
  deriving DecidableEq

/-- `populateRecommendations` (lines 785–828): skips (`none`) when
`llmData.recommendation` is falsy; the steps lists render only when present
and non-empty. -/
def populateRecommendations (llmData : LLMData) : Option RecommendationView :=
  match llmData.recommendation with
  | none => none
  | some rec =>
    some { actionText := jsStrOpt rec.action
           actionClass :=
             if rec.action = some "BLOCK TRANSACTION" then "reject"
             else if rec.action = some "REQUIRE ADDITIONAL VERIFICATION" then "step-up"
             else "approve"
           urgency :=
             match rec.urgency with
             | some u => if u = "" then none else some u
             | none => none
           nextSteps :=
             match rec.next_steps with
             | some steps => if 0 < steps.length then steps else []
             | none => []
           additionalInfo :=
             match rec.additional_info_needed with
             | some info => if 0 < info.length then info else []
             | none => [] }

/-- One rendered timeline entry. -/
structure TimelineEntryView where
  riskColor : String
  amountText : String
  timeText : String
  riskText : String
  deriving DecidableEq

/-- Contents of `#customerTimelineViz`. -/
inductive TimelineView where
  | noHistory
  | entries (l : List TimelineEntryView)
  deriving DecidableEq

/-- The transaction list the timeline uses:
`llmData.customer_profile?.recent_transactions ||
llmData.historical_context?.recent_transactions || []` (an empty array is
truthy in JS, so a present empty list is kept). -/
def recentTransactionsOf (llmData : LLMData) : List TimelineTxn :=
  match llmData.customer_profile with
  | some profile =>
    match profile.recent_transactions with
    | some l => l
    | none =>
      match llmData.historical_context with
      | some hist => (hist.recent_transactions).getD []
      | none => []
  | none =>
    match llmData.historical_context with
    | some hist => (hist.recent_transactions).getD []
    | none => []

/-- The `recentTxns.forEach(txn => ...)` body (lines 853–873):
`txn.amount.toFixed(2)` is a member access on a possibly-undefined value,
so an entry without `amount` raises a `TypeError`. -/
def renderTimelineEntries : List TimelineTxn → Except String (List TimelineEntryView)
  | [] => .ok []
  | txn :: rest =>
    let riskColor :=
      if txn.risk = some "High Risk" then "var(--danger-color)"
      else if txn.risk = some "Medium Risk" then "var(--warning-color)"
      else "var(--success-color)"
    match txn.amount with
    | none => .error "TypeError: Cannot read properties of undefined (reading toFixed)"
    | some amount =>
      match renderTimelineEntries rest with
      | .error e => .error e
      | .ok es =>
        .ok ({ riskColor := riskColor
               amountText := "$" ++ qToFixed 2 amount
               timeText := jsStrOpt txn.time
               riskText := jsStrOpt txn.risk } :: es)

/-- `populateCustomerTimeline` (lines 833–877). -/
def populateCustomerTimeline (llmData : LLMData) : Except String TimelineView :=
  let recentTxns := recentTransactionsOf llmData
  if recentTxns.length = 0 then .ok .noHistory
  else
    match renderTimelineEntries recentTxns with
    | .error e => .error e
    | .ok es => .ok (.entries es)

/-- Everything `displayLLMExplanation` renders into the results panel. -/
structure ExplanationRender where
  sectionVisible : Bool
  summary : Option String
  detailed : DetailedAnalysisView
  behavioral : BehavioralView
  riskFactors : RiskFactorsView
  networkIntel : Option NetworkIntelView
  recommendations : Option RecommendationView
  timeline : TimelineView
  deriving DecidableEq

/-- The seven sections as rendered by one `displayLLMExplanation` call whose
timeline rendering produced `tl`. -/
def explanationRenderOf (d : LLMData) (transactionData : PredictionTransactionData)
    (tl : TimelineView) : ExplanationRender where
  sectionVisible := true
  summary := populateExecutiveSummary d
  detailed := populateDetailedAnalysis d
  behavioral := populateBehavioralInsights d
  riskFactors := populateRiskFactors d
  networkIntel := populateNetworkIntelligence d transactionData
  recommendations := populateRecommendations d
  timeline := tl

/-- `displayLLMExplanation` (lines 508–528): returns immediately on a falsy
`llmData` (`.ok none`); otherwise runs the seven section renderers, of which
only the timeline can raise (its `TypeError` propagates uncaught). -/
def displayLLMExplanation (llmData : Option LLMData)
    (transactionData : PredictionTransactionData) :
    Except String (Option ExplanationRender) :=
  match llmData with
  | none => .ok none
  | some d =>
    match populateCustomerTimeline d with
    | .error e => .error e
    | .ok tl => .ok (some (explanationRenderOf d transactionData tl))

/-! ## Claim statements and concrete instances -/

/-- The behaviour claim C1 makes about the effective `submitFeedback`:
buttons disabled in flight, category-specific success message, one static
failure message, and a fixed re-enable delay on both outcomes. -/
def submitFeedbackClaimC1 : Prop :=
  (∀ p ft o, (submitFeedback p ft o).buttonsDisabledDuringFlight = true) ∧
  (∀ p ft resp, (submitFeedback p ft (.success resp)).messageShown = categoryMessage ft) ∧
  (∃ s, ∀ p ft err, (submitFeedback p ft (.failure err)).messageShown = s) ∧
  (∃ d, ∀ p ft o, (submitFeedback p ft o).reenableDelayMs = some d)

/-- The safety claim C4 makes about `displayLLMExplanation`: it never raises
on a present explanation object. -/
def displayClaimC4 : Prop :=
  ∀ (d : LLMData) (td : PredictionTransactionData),
    ∃ r, displayLLMExplanation (some d) td = .ok r

/-- A recent transaction carrying `time` and `risk` but no `amount`. -/
def c4BadTxn : TimelineTxn := ⟨none, some "10:00", some "Low Risk"⟩

/-- A customer profile whose transaction list contains `c4BadTxn`. -/
def c4BadProfile : CustomerProfile := ⟨none, none, none, none, some [c4BadTxn]⟩

/-- An explanation payload on which the timeline renderer raises. -/
def c4BadData : LLMData := ⟨none, none, none, some c4BadProfile, none, none, none⟩

/-- An explanation payload with every optional field absent. -/
def c4EmptyData : LLMData := ⟨none, none, none, none, none, none, none⟩

/-- The row produced by `filterTable` in the witness instance below. -/
def c6OutRow : LogTableRow := ⟨"+14155551234", "High Risk", "", "fadeIn 0.3s ease-out"⟩

/-- A six-entry `/api/logs` response for the `loadRecentTransactions` witness. -/
def c10Logs : List RecentLogEntry :=
  [⟨"+15550000001", "2025-01-01 10:00", 10, "High Risk"⟩,
   ⟨"+15550000002", "2025-01-01 10:01", 20, "Low Risk"⟩,
   ⟨"+15550000003", "2025-01-01 10:02", 30, "Medium Risk"⟩,
   ⟨"+15550000004", "2025-01-01 10:03", 40, "Low Risk"⟩,
   ⟨"+15550000005", "2025-01-01 10:04", 50, "High Risk"⟩,
   ⟨"+15550000006", "2025-01-01 10:05", 60, "Low Risk"⟩]

/-! ## Bridging lemmas -/

/-- `startsWithList` decides the `IsPrefix` relation. -/
theorem startsWithList_iff (n h : List Char) :
    startsWithList n h = true ↔ n <+: h := by
  induction n generalizing h with
  | nil => simp [startsWithList]
  | cons a as ih =>
    cases h with
    | nil => simp [startsWithList]
    | cons b bs => simp [startsWithList, List.cons_prefix_cons, ih]

/-- `jsIncludesAux` decides the `IsInfix` relation. -/
theorem jsIncludesAux_iff (n h : List Char) :
    jsIncludesAux n h = true ↔ n <:+: h := by
  induction h with
  | nil => simp [jsIncludesAux, List.isEmpty_iff]
  | cons b bs ih =>
    simp [jsIncludesAux, List.infix_cons_iff, startsWithList_iff, ih]

/-- JS `includes` agrees with substring containment on character lists. -/
theorem jsIncludes_iff (hay needle : String) :
    jsIncludes hay needle = true ↔ needle.data <:+: hay.data :=
  jsIncludesAux_iff needle.data hay.data

/-- The timeline entry renderer succeeds when every entry has an `amount`. -/
theorem renderTimelineEntries_ok (l : List TimelineTxn)
    (h : ∀ t ∈ l, t.amount.isSome = true) :
    ∃ es, renderTimelineEntries l = .ok es := by
  induction l with
  | nil => exact ⟨[], rfl⟩
  | cons t ts ih =>
    obtain ⟨es, hes⟩ := ih (fun x hx => h x (List.mem_cons_of_mem _ hx))
    have ht := h t (List.mem_cons_self _ _)
    cases ha : t.amount with
    | none => rw [ha] at ht; simp at ht
    | some a =>
      simp only [renderTimelineEntries, ha, hes]
      exact ⟨_, rfl⟩

/-! ## Claim C1 -/

/-- Claim C1 is false on the code: at the concrete call
`submitFeedback "+14155551234" "correct"` with a successful response
`{message: "Recorded"}`, the effective (last-defined, exported)
`submitFeedback` leaves the buttons enabled during flight and shows the
server message rather than the category-specific one, refuting
`submitFeedbackClaimC1`. -/
theorem submitFeedback_claim_counterexample :
    (submitFeedback "+14155551234" "correct"
        (.success ⟨"Recorded", "success"⟩)).buttonsDisabledDuringFlight = false ∧
    (submitFeedback "+14155551234" "correct"
        (.success ⟨"Recorded", "success"⟩)).messageShown = "Recorded" ∧
    (submitFeedback "+14155551234" "correct"
        (.success ⟨"Recorded", "success"⟩)).messageShown ≠ categoryMessage "correct" ∧
    ¬ submitFeedbackClaimC1 := by
  refine ⟨rfl, rfl, by decide, fun h => ?_⟩
  have := h.1 "+14155551234" "correct" (.success ⟨"Recorded", "success"⟩)
  exact absurd this (by decide)

/-- Claim C1 (amended): the effective (last-defined, exported)
`submitFeedback` posts to `/api/feedback`, never disables the buttons before
the response, on success shows the server-provided message and then disables
the feedback buttons, on failure shows the static message
"Error submitting feedback" and leaves the buttons enabled, and no timer
ever re-enables them. -/
theorem submitFeedback_effective_behavior (p ft : String) (resp : FeedbackResponse)
    (err : String) :
    (∀ o, (submitFeedback p ft o).request.url = "/api/feedback") ∧
    (∀ o, (submitFeedback p ft o).buttonsDisabledDuringFlight = false) ∧
    (submitFeedback p ft (.success resp)).messageShown = resp.message ∧
    (submitFeedback p ft (.success resp)).buttonsDisabledAfterResponse = true ∧
    (submitFeedback p ft (.failure err)).messageShown = "Error submitting feedback" ∧
    (submitFeedback p ft (.failure err)).buttonsDisabledAfterResponse = false ∧
    (∀ o, (submitFeedback p ft o).reenableDelayMs = none) :=
  ⟨fun _ => rfl, fun _ => rfl, rfl, rfl, rfl, rfl, fun _ => rfl⟩

/-- Witness for C1's amended theorem at a concrete failing request. -/
theorem submitFeedback_effective_behavior_witness :
    (submitFeedback "+14155551234" "correct" (.failure "network")).messageShown =
      "Error submitting feedback" :=
  (submitFeedback_effective_behavior "+14155551234" "correct"
    ⟨"Recorded", "success"⟩ "network").2.2.2.2.1

/-! ## Claim C2 -/

/-- Claim C2: the two `submitFeedback` declarations are not equivalent — for
every phone number and feedback type, the first posts to `/feedback` with
payload keys `phone_number`/`feedback` while the effective second posts to
`/api/feedback` with keys `phone_number`/`feedback_type`, so their emitted
requests differ on every input. -/
theorem submitFeedback_two_defs_diverge (p ft : String) (o : FetchOutcome) :
    (submitFeedbackFirstDef p ft o).request.url = "/feedback" ∧
    (submitFeedbackFirstDef p ft o).request.body = [("phone_number", p), ("feedback", ft)] ∧
    (submitFeedback p ft o).request.url = "/api/feedback" ∧
    (submitFeedback p ft o).request.body = [("phone_number", p), ("feedback_type", ft)] ∧
    (submitFeedbackFirstDef p ft o).request ≠ (submitFeedback p ft o).request :=
  ⟨rfl, rfl, rfl, rfl, fun h => by
    have h2 := congrArg FeedbackRequest.url h
    simp [submitFeedbackFirstDef, submitFeedback] at h2⟩

/-- Witness for C2 at a concrete input. -/
theorem submitFeedback_two_defs_diverge_witness :
    (submitFeedbackFirstDef "+14155551234" "correct"
        (.success ⟨"ok", "success"⟩)).request.url = "/feedback" :=
  (submitFeedback_two_defs_diverge "+14155551234" "correct" (.success ⟨"ok", "success"⟩)).1

/-! ## Claim C3 -/

/-- Claim C3 is false on the code: on a log object whose
`transaction_amount` is missing, `showDetails` renders the amount field as
the literal "$0.00" (the `|| 0` fallback through `toFixed(2)`), not "N/A". -/
theorem showDetails_na_counterexample :
    emptyLog.transaction_amount = none ∧
    (showDetails emptyLog).modalAmount = "$0.00" ∧
    (showDetails emptyLog).modalAmount ≠ "N/A" := by decide

/-- Claim C3 (amended): `showDetails` fills the fields guarded by an
`|| "N/A"` fallback — phone, timestamp, risk level, the customer-profile
fields, the transaction-pattern counters, and the whole CAMARA section when
`camara_data` is absent — with the literal "N/A" when their source datum is
missing; but a missing amount renders "$0.00", a missing fraud probability
renders "NaN%", and a missing explanation renders its own placeholder texts
("No explanation provided." and the no-factors note) rather than "N/A". -/
theorem showDetails_missing_field_fallbacks (log : TransactionLog) :
    (log.phone_number = none → (showDetails log).modalPhone = "N/A") ∧
    (log.timestamp = none → (showDetails log).modalTimestamp = "N/A") ∧
    (log.risk_level = none → (showDetails log).modalRiskLevelText = "N/A") ∧
    (log.customer_vintage = none → (showDetails log).modalVintage = "N/A") ∧
    (log.risk_rating = none → (showDetails log).modalRiskRating = "N/A") ∧
    (log.segment = none → (showDetails log).modalSegment = "N/A") ∧
    (log.occupation = none → (showDetails log).modalOccupation = "N/A") ∧
    (log.country = none → (showDetails log).modalCountry = "N/A") ∧
    (log.city = none → (showDetails log).modalCity = "N/A") ∧
    (log.geo_restriction = none → (showDetails log).modalGeoRestriction = "N/A") ∧
    (log.pep_flag = none → (showDetails log).modalPepFlag = "N/A") ∧
    (log.txn_count_1h = none → (showDetails log).modalTxnCount = "N/A") ∧
    (log.credit_reversals_7d = none → (showDetails log).modalReversals = "N/A") ∧
    (log.camara_data = none → (showDetails log).camara =
      ⟨"N/A", "N/A", "N/A", "N/A", "N/A", "N/A", "N/A", "N/A"⟩) ∧
    (log.transaction_amount = none → (showDetails log).modalAmount = "$0.00") ∧
    (log.fraud_probability = none → (showDetails log).modalProbability = "NaN%") ∧
    (log.explanation = none →
      (showDetails log).modalExplanationSummary = "No explanation provided." ∧
      (showDetails log).modalExplanationFactors = .noFactors ∧
      (showDetails log).triggeredRulesVisible = false) := by
  refine ⟨?_, ?_, ?_, ?_, ?_, ?_, ?_, ?_, ?_, ?_, ?_, ?_, ?_, ?_, ?_, ?_, ?_⟩ <;>
    intro h <;>
    (simp [showDetails, camaraModalFields, jsOrStr, natOrNA, h]; try decide)

/-- Witness for C3's amended theorem on the all-missing log. -/
theorem showDetails_missing_field_fallbacks_witness :
    (showDetails emptyLog).modalPhone = "N/A" :=
  (showDetails_missing_field_fallbacks emptyLog).1 rfl

/-! ## Claim C4 -/

/-- Claim C4 is false on the code: an explanation object whose
`customer_profile.recent_transactions` contains an entry without an `amount`
makes `populateCustomerTimeline` evaluate `txn.amount.toFixed(2)` on
`undefined`, so `displayLLMExplanation` raises a `TypeError`, refuting
`displayClaimC4`. -/
theorem displayLLMExplanation_throws_counterexample :
    displayLLMExplanation (some c4BadData) ⟨none⟩ =
      .error "TypeError: Cannot read properties of undefined (reading toFixed)" ∧
    ¬ displayClaimC4 := by
  have h1 : displayLLMExplanation (some c4BadData) ⟨none⟩ =
      .error "TypeError: Cannot read properties of undefined (reading toFixed)" := rfl
  refine ⟨h1, fun h => ?_⟩
  obtain ⟨r, hr⟩ := h c4BadData ⟨none⟩
  rw [h1] at hr
  exact Except.noConfusion hr

/-- Claim C4 (amended): on every explanation object whose present
recent-transaction entries all carry an `amount`, `displayLLMExplanation`
raises no error, and each sub-section renderer skips or renders its neutral
placeholder when its datum is absent. -/
theorem displayLLMExplanation_partial_safe (d : LLMData)
    (td : PredictionTransactionData)
    (h : ∀ t ∈ recentTransactionsOf d, t.amount.isSome = true) :
    ∃ r : ExplanationRender,
      displayLLMExplanation (some d) td = .ok (some r) ∧
      (d.executive_summary = none → r.summary = none) ∧
      (d.detailed_analysis = none → r.detailed = .skipped) ∧
      (d.behavioral_insights = none → d.customer_profile = none →
        r.behavioral = .placeholderNoInsights) ∧
      (d.risk_factors = none → r.riskFactors = .noneDetected) ∧
      (td.camara_data = none → r.networkIntel = none) ∧
      (d.recommendation = none → r.recommendations = none) ∧
      (recentTransactionsOf d = [] → r.timeline = .noHistory) := by
  have htl : ∃ tl, populateCustomerTimeline d = .ok tl ∧
      (recentTransactionsOf d = [] → tl = .noHistory) := by
    unfold populateCustomerTimeline
    by_cases he : (recentTransactionsOf d).length = 0
    · exact ⟨.noHistory, by simp [he], fun _ => rfl⟩
    · obtain ⟨es, hes⟩ := renderTimelineEntries_ok _ h
      refine ⟨.entries es, by simp [he, hes], fun habs => ?_⟩
      exact absurd (by rw [habs]; rfl) he
  obtain ⟨tl, htl1, htl0⟩ := htl
  refine ⟨explanationRenderOf d td tl, ?_, ?_, ?_, ?_, ?_, ?_, ?_, ?_⟩
  · simp [displayLLMExplanation, htl1]
  · intro h1; simp [explanationRenderOf, populateExecutiveSummary, h1]
  · intro h1; simp [explanationRenderOf, populateDetailedAnalysis, h1]
  · intro h1 h2; simp [explanationRenderOf, populateBehavioralInsights, h1, h2]
  · intro h1; simp [explanationRenderOf, populateRiskFactors, h1]
  · intro h1; simp [explanationRenderOf, populateNetworkIntelligence, h1]
  · intro h1; simp [explanationRenderOf, populateRecommendations, h1]
  · exact htl0

/-- Witness for C4's amended theorem on the all-absent payload. -/
theorem displayLLMExplanation_partial_safe_witness :
    ∃ r : ExplanationRender,
      displayLLMExplanation (some c4EmptyData) ⟨none⟩ = .ok (some r) ∧
      (c4EmptyData.executive_summary = none → r.summary = none) ∧
      (c4EmptyData.detailed_analysis = none → r.detailed = .skipped) ∧
      (c4EmptyData.behavioral_insights = none → c4EmptyData.customer_profile = none →
        r.behavioral = .placeholderNoInsights) ∧
      (c4EmptyData.risk_factors = none → r.riskFactors = .noneDetected) ∧
      ((⟨none⟩ : PredictionTransactionData).camara_data = none → r.networkIntel = none) ∧
      (c4EmptyData.recommendation = none → r.recommendations = none) ∧
      (recentTransactionsOf c4EmptyData = [] → r.timeline = .noHistory) :=
  displayLLMExplanation_partial_safe c4EmptyData ⟨none⟩
    (by simp [recentTransactionsOf, c4EmptyData])

/-! ## Claim C5 -/

/-- Claim C5: `getHeatColor` maps a fraud rate of 0 % to the neutral colour
`#1a1f29`, rates from 1 % through 20 % to the low colour `#10b981`, rates
from 21 % through 50 % to the mid colour `#f59e0b`, and rates above 50 % to
the high colour `#ef4444`. -/
theorem getHeatColor_thresholds (r : ℚ) :
    (r = 0 → getHeatColor r = "#1a1f29") ∧
    (1 ≤ r → r ≤ 20 → getHeatColor r = "#10b981") ∧
    (21 ≤ r → r ≤ 50 → getHeatColor r = "#f59e0b") ∧
    (50 < r → getHeatColor r = "#ef4444") := by
  unfold getHeatColor
  refine ⟨?_, ?_, ?_, ?_⟩ <;> intros <;> split_ifs <;> first | rfl | linarith

/-- Witness for C5 at the concrete rate 30 %. -/
theorem getHeatColor_thresholds_witness : getHeatColor 30 = "#f59e0b" :=
  (getHeatColor_thresholds 30).2.2.1 (by norm_num) (by norm_num)

/-! ## Claim C6 -/

/-- Claim C6: after `filterTable`, a row is visible (display not `'none'`)
iff its phone-number cell contains the search term as a case-insensitive
substring and its risk level matches the selection exactly (or the selection
is `'all'`). -/
theorem filterTable_visibility (searchValue riskValue : String)
    (rows : List LogTableRow) (r : LogTableRow)
    (hr : r ∈ filterTable searchValue riskValue rows) :
    r.display ≠ "none" ↔
      ((jsToLowerCase searchValue).data <:+: (jsToLowerCase r.phoneCellText).data ∧
        (riskValue = "all" ∨ r.dataRisk = riskValue)) := by
  simp only [filterTable] at hr
  rcases List.mem_map.1 hr with ⟨row, -, rfl⟩
  simp only [filterRowUpdate]
  split
  case isTrue h =>
    simp only [Bool.and_eq_true, Bool.or_eq_true, decide_eq_true_eq, jsIncludes_iff] at h
    simp [h.1, h.2]
  case isFalse h =>
    simp only [Bool.and_eq_true, Bool.or_eq_true, decide_eq_true_eq, jsIncludes_iff,
      not_and_or, Bool.not_eq_true] at h
    constructor
    · intro hd; exact absurd rfl hd
    · intro hcond
      exfalso
      rcases h with h | h
      · exact absurd hcond.1 h
      · exact h hcond.2

/-- Witness for C6 on a one-row table with a matching search and risk. -/
theorem filterTable_visibility_witness :
    c6OutRow.display ≠ "none" ↔
      ((jsToLowerCase "4155").data <:+: (jsToLowerCase c6OutRow.phoneCellText).data ∧
        ("High Risk" = "all" ∨ c6OutRow.dataRisk = "High Risk")) :=
  filterTable_visibility "4155" "High Risk"
    [⟨"+14155551234", "High Risk", "", ""⟩] c6OutRow (by decide)

/-! ## Claim C7 -/

/-- Claim C7: the phone validation rejects "abc" and accepts "+14155551234";
the amount validation rejects "-5" and "0" and accepts "10.50"; and any
input failing either check prevents the submission and shows the
corresponding inline validation error. -/
theorem formValidation_cases (p a : String) (u : Bool) :
    validatePhone "abc" = false ∧ validatePhone "+14155551234" = true ∧
    amountValid "-5" = false ∧ amountValid "0" = false ∧ amountValid "10.50" = true ∧
    (validatePhone p = false →
      predictionFormSubmit p a u =
        ⟨true, some ("phone_number", "Please enter a valid phone number (e.g., +1234567890)"),
          false, false⟩) ∧
    (validatePhone p = true → amountValid a = false →
      predictionFormSubmit p a u =
        ⟨true, some ("transaction_amount", "Please enter a valid amount greater than 0"),
          false, false⟩) := by
  refine ⟨by decide, by decide, by decide, by decide, by decide, ?_, ?_⟩
  · intro hp
    unfold validatePhone at hp
    unfold predictionFormSubmit
    simp [hp]
  · intro hp ha
    unfold validatePhone at hp
    unfold predictionFormSubmit
    simp only [hp, Bool.not_true, Bool.false_eq_true, if_false]
    cases hpf : parseFloat a with
    | none => rfl
    | some q =>
      unfold amountValid at ha
      rw [hpf] at ha
      simp only [decide_eq_false_iff_not, not_lt] at ha
      simp [ha]

/-- Witness for C7: the invalid phone "abc" blocks submission. -/
theorem formValidation_cases_witness :
    predictionFormSubmit "abc" "50" true =
      ⟨true, some ("phone_number", "Please enter a valid phone number (e.g., +1234567890)"),
        false, false⟩ :=
  (formValidation_cases "abc" "50" true).2.2.2.2.2.1 (by decide)

/-! ## Claim C8 -/

/-- Claim C8: for a submission that passes validation (valid phone, parsed
amount positive), the large-amount confirmation prompt is shown iff the
amount exceeds 1 000 000. -/
theorem largeAmount_confirm_iff (p a : String) (u : Bool) (q : ℚ)
    (hp : validatePhone p = true) (hq : parseFloat a = some q) (h0 : 0 < q) :
    ((predictionFormSubmit p a u).confirmShown = true ↔ 1000000 < q) := by
  unfold validatePhone at hp
  unfold predictionFormSubmit
  rw [hq]
  simp only [hp, Bool.not_true, Bool.false_eq_true, if_false]
  have hnle : ¬ q ≤ 0 := not_le.2 h0
  simp only [hnle, if_false]
  by_cases h1 : 1000000 < q
  · simp only [h1, if_true]
    cases u <;> simp
  · simp [h1]

/-- Witness for C8 at a concrete 2 500 000 amount. -/
theorem largeAmount_confirm_iff_witness :
    (predictionFormSubmit "+14155551234" "2500000" true).confirmShown = true :=
  (largeAmount_confirm_iff "+14155551234" "2500000" true 2500000
    (by decide) (by decide) (by decide)).mpr (by norm_num)

/-! ## Claim C9 -/

/-- Claim C9: every failed widget fetch is caught and replaces the widget's
container with that widget's designated static error string. -/
theorem widget_fetch_error_placeholders (e : String) :
    loadHeatmap (.error e) = .errorText "Error loading heatmap data" ∧
    loadFraudMap (.error e) = .errorText "Error loading map" ∧
    loadVelocityChecks (.error e) = .errorText "Error loading velocity data" ∧
    loadBehaviorTimeline (.error e) = .errorText "Error loading timeline" :=
  ⟨rfl, rfl, rfl, rfl⟩

/-- Witness for C9 at a concrete fetch error. -/
theorem widget_fetch_error_placeholders_witness :
    loadHeatmap (.error "network down") = .errorText "Error loading heatmap data" :=
  (widget_fetch_error_placeholders "network down").1

/-! ## Claim C10 -/

/-- Claim C10: `loadRecentTransactions` renders "No transactions yet" on an
empty logs array, and otherwise renders exactly `min (length, 5)` entries
taken in order from the front of the array. -/
theorem loadRecentTransactions_first_five (logs : List RecentLogEntry) :
    (logs = [] → loadRecentTransactions (.ok logs) = .placeholderText "No transactions yet") ∧
    (logs ≠ [] → ∃ items,
      loadRecentTransactions (.ok logs) = .items items ∧
      items.length = min logs.length 5 ∧
      ∀ i (hi : i < items.length) (hl : i < logs.length),
        items.get ⟨i, hi⟩ = renderLogItem (logs.get ⟨i, hl⟩)) := by
  constructor
  · intro h; subst h; rfl
  · intro h
    refine ⟨(logs.take 5).map renderLogItem, ?_, ?_, ?_⟩
    · unfold loadRecentTransactions
      simp [List.length_eq_zero, h]
    · simp [List.length_take, Nat.min_comm]
    · intro i hi hl
      simp [List.get_eq_getElem, List.getElem_map, List.getElem_take]

/-- Witness for C10 on a six-entry response: exactly five items rendered. -/
theorem loadRecentTransactions_first_five_witness :
    ∃ items,
      loadRecentTransactions (.ok c10Logs) = .items items ∧
      items.length = min c10Logs.length 5 ∧
      ∀ i (hi : i < items.length) (hl : i < c10Logs.length),
        items.get ⟨i, hi⟩ = renderLogItem (c10Logs.get ⟨i, hl⟩) :=
  (loadRecentTransactions_first_five c10Logs).2 (by decide)
